import Mathlib

/-!
Verification of the JWT authentication subsystem of the repository
(`learning_tasks/auth/task_2_jwt_advanced.py`), via a shallow embedding.

Modelling conventions:
* A signed token (`Tok`) is either a well-formed signed payload tagged with
  the secret it was signed with (an ideal MAC: verification with a secret
  succeeds exactly when it equals the signing secret), or an unparseable
  string (`garbage`).
* Time is an integer timestamp (`now : Int`); `timedelta` values are
  integer durations.  `jwt.decode` rejects a token whose `exp` is at or
  before the current time (the library's expiry validation, modelled from
  the spec: "`Expired` if `expiresAt` is at or before the current time").
* The mutable module state (`token_blacklist`, `fake_users_db`) is passed
  explicitly; the user store is a lookup function, the blacklist a list.
* Python truthiness of `if expires_delta:` is kept: a zero delta behaves
  like `None`.
* An `HTTPException(status_code, detail)` becomes an `HErr` value and the
  endpoint functions return `Except HErr α`.
-/

-- ============================================
-- CONFIGURATION (task_2_jwt_advanced.py lines 25-29)
-- ============================================

def SECRET_KEY : String := "your-secret-key-for-access-tokens"

def REFRESH_SECRET_KEY : String := "your-secret-key-for-refresh-tokens"

def ACCESS_TOKEN_EXPIRE_MINUTES : Int := 15

def REFRESH_TOKEN_EXPIRE_DAYS : Int := 7

-- ============================================
-- ENUMS AND MODELS
-- ============================================

inductive UserRole where
  | admin
  | user
  | guest
deriving DecidableEq, Repr

/-- Public identity model (`class User(BaseModel)`): no password field. -/
structure User where
  username : String
  email : String
  role : UserRole
  disabled : Option Bool
deriving DecidableEq, Repr

/-- `class UserInDB(User)`: adds the stored password hash. -/
structure UserInDB extends User where
  hashed_password : String
deriving DecidableEq, Repr

/-- Response model `Token`. -/
structure TokenPair (τ : Type) where
  access_token : τ
  refresh_token : τ
  token_type : String
deriving DecidableEq, Repr

/-- `HTTPException(status_code, detail)`. -/
structure HErr where
  status_code : Nat
  detail : String
deriving DecidableEq, Repr

-- ============================================
-- TOKENS AND THE JOSE CODEC
-- ============================================

/-- The claims set carried in a token: the `sub`, `exp` and `type` claims
(the only ones this program ever writes or reads). -/
structure Payload where
  sub : Option String
  exp : Int
  typ : Option String
deriving DecidableEq, Repr

/-- A presented token string: either the compact encoding of a payload
signed with some secret, or an unparseable string. -/
inductive Tok where
  | signed (p : Payload) (secret : String)
  | garbage (s : String)
deriving DecidableEq, Repr

/-- Internal error taxonomy of `jose.jwt.decode` (all are `JWTError`s). -/
inductive JWTError where
  | malformed
  | badSignature
  | expired
deriving DecidableEq, Repr

/-- `jose.jwt.decode(token, key, algorithms=[ALGORITHM])`: parse, verify the
signature against `key`, then validate the `exp` claim against the clock. -/
def jwt_decode (t : Tok) (key : String) (now : Int) : Except JWTError Payload :=
  match t with
  | .garbage _ => .error .malformed
  | .signed p k =>
      if k ≠ key then .error .badSignature
      else if p.exp ≤ now then .error .expired
      else .ok p

/-- `jwt.encode(to_encode, key, algorithm=ALGORITHM)`. -/
def jwt_encode (p : Payload) (key : String) : Tok :=
  .signed p key

-- ============================================
-- SIMULATED DATABASE (lines 66-91)
-- ============================================

def bcrypt_hash_of_secret : String :=
  "$2b$12$EixZaYVK1fsbw1ZfbX3OXePaWxn96p36WQoeG6Lruj3vjPGga31lm"

/-- `fake_users_db` as a lookup-by-username store. -/
def fake_users_db : String → Option UserInDB := fun username =>
  if username = "admin" then
    some ⟨⟨"admin", "admin@example.com", .admin, some false⟩, bcrypt_hash_of_secret⟩
  else if username = "john" then
    some ⟨⟨"john", "john@example.com", .user, some false⟩, bcrypt_hash_of_secret⟩
  else if username = "guest" then
    some ⟨⟨"guest", "guest@example.com", .guest, some false⟩, bcrypt_hash_of_secret⟩
  else none

-- ============================================
-- UTILITY FUNCTIONS (lines 97-182)
-- ============================================

/-- `authenticate_user`, with the opaque bcrypt capability
`pwd_context.verify` passed in as `verify` and the store as `db`. -/
def authenticate_user (verify : String → String → Bool)
    (db : String → Option UserInDB)
    (username password : String) : Option UserInDB :=
  match db username with
  | none => none
  | some user =>
      if ¬ verify password user.hashed_password then none
      else some user

/-- The `data` dict passed to the token factories (the program only ever
puts a `sub` claim in it). -/
structure TokenData where
  sub : Option String
deriving DecidableEq, Repr

/-- `create_access_token(data, expires_delta)`: claims = data plus
`exp = now + delta` (default 15 minutes; `timedelta(0)` is falsy in Python,
hence also the default) and `type = "access"`, signed with `SECRET_KEY`. -/
def create_access_token (data : TokenData) (now : Int)
    (expires_delta : Option Int) : Tok :=
  let expire : Int :=
    match expires_delta with
    | some d => if d = 0 then now + 15 * 60 else now + d
    | none => now + 15 * 60
  jwt_encode ⟨data.sub, expire, some "access"⟩ SECRET_KEY

/-- `create_refresh_token(data, expires_delta)`: default 7 days,
`type = "refresh"`, signed with `REFRESH_SECRET_KEY`. -/
def create_refresh_token (data : TokenData) (now : Int)
    (expires_delta : Option Int) : Tok :=
  let expire : Int :=
    match expires_delta with
    | some d => if d = 0 then now + 7 * 86400 else now + d
    | none => now + 7 * 86400
  jwt_encode ⟨data.sub, expire, some "refresh"⟩ REFRESH_SECRET_KEY

/-- `get_current_user`: the access-token verification dependency.
Checks, in program order: blacklist membership; `jwt.decode` under
`SECRET_KEY` (parse, signature, expiry — all caught as `JWTError`);
the `type` claim; presence of the `sub` claim; existence of the subject
in the store.  Returns the public `User(**user)` projection. -/
def get_current_user (token_blacklist : List Tok)
    (db : String → Option UserInDB) (now : Int) (token : Tok) :
    Except HErr User :=
  if token ∈ token_blacklist then
    .error ⟨401, "Token has been revoked"⟩
  else
    match jwt_decode token SECRET_KEY now with
    | .error _ => .error ⟨401, "Could not validate credentials"⟩
    | .ok payload =>
        if payload.typ ≠ some "access" then
          .error ⟨401, "Invalid token type"⟩
        else
          match payload.sub with
          | none => .error ⟨401, "Invalid token"⟩
          | some username =>
              match db username with
              | none => .error ⟨401, "User not found"⟩
              | some user => .ok user.toUser

/-- `require_admin`: pure role guard over an already-authenticated user. -/
def require_admin (current_user : User) : Except HErr User :=
  if current_user.role ≠ UserRole.admin then
    .error ⟨403, "Admin access required"⟩
  else
    .ok current_user

-- ============================================
-- ENDPOINTS (lines 188-308)
-- ============================================

/-- `POST /login`. -/
def login (verify : String → String → Bool) (db : String → Option UserInDB)
    (now : Int) (username password : String) :
    Except HErr (TokenPair Tok) :=
  match authenticate_user verify db username password with
  | none => .error ⟨401, "Incorrect credentials"⟩
  | some user =>
      let access_token :=
        create_access_token ⟨some user.username⟩ now
          (some (ACCESS_TOKEN_EXPIRE_MINUTES * 60))
      let refresh_token :=
        create_refresh_token ⟨some user.username⟩ now
          (some (REFRESH_TOKEN_EXPIRE_DAYS * 86400))
      .ok ⟨access_token, refresh_token, "bearer"⟩

/-- `POST /refresh`: decode the presented token under `REFRESH_SECRET_KEY`,
check the `type` and `sub` claims, mint a fresh access token and echo the
refresh token back.  Takes no blacklist and no user store. -/
def refresh_access_token (now : Int) (refresh_token : Tok) :
    Except HErr (TokenPair Tok) :=
  match jwt_decode refresh_token REFRESH_SECRET_KEY now with
  | .error _ => .error ⟨401, "Invalid refresh token"⟩
  | .ok payload =>
      if payload.typ ≠ some "refresh" then
        .error ⟨401, "Invalid token type"⟩
      else
        match payload.sub with
        | none => .error ⟨401, "Invalid token"⟩
        | some username =>
            let access_token :=
              create_access_token ⟨some username⟩ now
                (some (ACCESS_TOKEN_EXPIRE_MINUTES * 60))
            .ok ⟨access_token, refresh_token, "bearer"⟩

/-- `POST /logout`: runs the `get_current_user` dependency, then just
returns a message.  The body never touches `token_blacklist`; the
(unchanged) blacklist is returned alongside the message to make the
resulting module state explicit. -/
def logout (token_blacklist : List Tok) (db : String → Option UserInDB)
    (now : Int) (token : Tok) : Except HErr (String × List Tok) :=
  match get_current_user token_blacklist db now token with
  | .error e => .error e
  | .ok current_user =>
      .ok ("User " ++ current_user.username ++ " logged out", token_blacklist)


-- ============================================
-- VERIFICATION-ORDER DECOMPOSITION
-- ============================================

/-- Modelled from the spec: the access-token verifier as the spec's
propagation-order sentence describes it, running the same checks but in the
claimed order "parse → signature → type → expiry → revocation → subject
existence" (revocation fifth instead of first, type before expiry). -/
def get_current_user_spec_order (token_blacklist : List Tok)
    (db : String → Option UserInDB) (now : Int) (token : Tok) :
    Except HErr User :=
  match token with
  | .garbage _ => .error ⟨401, "Could not validate credentials"⟩
  | .signed p k =>
      if k ≠ SECRET_KEY then .error ⟨401, "Could not validate credentials"⟩
      else if p.typ ≠ some "access" then .error ⟨401, "Invalid token type"⟩
      else if p.exp ≤ now then .error ⟨401, "Could not validate credentials"⟩
      else if token ∈ token_blacklist then .error ⟨401, "Token has been revoked"⟩
      else
        match p.sub with
        | none => .error ⟨401, "Invalid token"⟩
        | some username =>
            match db username with
            | none => .error ⟨401, "User not found"⟩
            | some user => .ok user.toUser

/-- Elementary check: revocation-registry membership. -/
def revocationCheck (token_blacklist : List Tok) (t : Tok) : Option HErr :=
  if t ∈ token_blacklist then some ⟨401, "Token has been revoked"⟩ else none

/-- Elementary check: the token string parses. -/
def parseCheck (t : Tok) : Option HErr :=
  match t with
  | .garbage _ => some ⟨401, "Could not validate credentials"⟩
  | .signed _ _ => none

/-- Elementary check: the signature verifies against `key`. -/
def signatureCheck (key : String) (t : Tok) : Option HErr :=
  match t with
  | .signed _ k =>
      if k ≠ key then some ⟨401, "Could not validate credentials"⟩ else none
  | .garbage _ => none

/-- Elementary check: the `exp` claim is in the future. -/
def expiryCheck (now : Int) (t : Tok) : Option HErr :=
  match t with
  | .signed p _ =>
      if p.exp ≤ now then some ⟨401, "Could not validate credentials"⟩ else none
  | .garbage _ => none

/-- Elementary check: the declared `type` claim is the expected one. -/
def typeCheck (expected : String) (t : Tok) : Option HErr :=
  match t with
  | .signed p _ =>
      if p.typ ≠ some expected then some ⟨401, "Invalid token type"⟩ else none
  | .garbage _ => none

/-- Elementary check: a `sub` claim is present. -/
def subjectPresentCheck (t : Tok) : Option HErr :=
  match t with
  | .signed p _ =>
      match p.sub with
      | none => some ⟨401, "Invalid token"⟩
      | some _ => none
  | .garbage _ => none

/-- Elementary check: the `sub` claim resolves in the user store. -/
def subjectExistsCheck (db : String → Option UserInDB) (t : Tok) : Option HErr :=
  match t with
  | .signed p _ =>
      match p.sub with
      | some n =>
          match db n with
          | none => some ⟨401, "User not found"⟩
          | some _ => none
      | none => none
  | .garbage _ => none

/-- The elementary checks of access-token verification, listed in the order
the program actually runs them: revocation first, then parse, signature and
expiry (the `jwt.decode` call), then declared type, subject presence and
subject existence. -/
def access_checks (bl : List Tok) (db : String → Option UserInDB)
    (now : Int) (t : Tok) : List (Option HErr) :=
  [revocationCheck bl t, parseCheck t, signatureCheck SECRET_KEY t,
   expiryCheck now t, typeCheck "access" t, subjectPresentCheck t,
   subjectExistsCheck db t]

-- ============================================
-- CLAIMS
-- ============================================

/-- C4: for every subject present in the store and every positive TTL, the
token minted by `create_access_token` decodes (before expiry, under
`SECRET_KEY`) to that subject with `type = "access"`, and `get_current_user`
on that fresh, unrevoked token returns the subject's public user record. -/
theorem C4_access_token_round_trip (db : String → Option UserInDB)
    (bl : List Tok) (username : String) (u : UserInDB) (now ttl : Int)
    (hdb : db username = some u) (httl : 0 < ttl)
    (hbl : create_access_token ⟨some username⟩ now (some ttl) ∉ bl) :
    jwt_decode (create_access_token ⟨some username⟩ now (some ttl))
        SECRET_KEY now = .ok ⟨some username, now + ttl, some "access"⟩ ∧
    get_current_user bl db now
        (create_access_token ⟨some username⟩ now (some ttl)) = .ok u.toUser := by
  have httl0 : ttl ≠ 0 := by omega
  have hexp : ¬ (now + ttl ≤ now) := by omega
  simp [create_access_token, jwt_encode, httl0] at hbl
  refine ⟨?_, ?_⟩
  · simp [create_access_token, jwt_encode, jwt_decode, httl0, hexp]
  · simp [get_current_user, hbl, create_access_token, jwt_encode, jwt_decode,
      httl0, hexp, hdb]

/-- Witness for C4 at a concrete input: subject `admin` of `fake_users_db`,
minted at time 0 with a 60-second TTL, empty blacklist. -/
theorem C4_access_token_round_trip_witness :
    jwt_decode (create_access_token ⟨some "admin"⟩ 0 (some 60))
        SECRET_KEY 0 = .ok ⟨some "admin", 0 + 60, some "access"⟩ ∧
    get_current_user [] fake_users_db 0
        (create_access_token ⟨some "admin"⟩ 0 (some 60)) =
      .ok (UserInDB.toUser
        ⟨⟨"admin", "admin@example.com", .admin, some false⟩,
          bcrypt_hash_of_secret⟩) :=
  C4_access_token_round_trip fake_users_db [] "admin"
    ⟨⟨"admin", "admin@example.com", .admin, some false⟩, bcrypt_hash_of_secret⟩
    0 60 rfl (by omega) (by simp)

/-- C5: any well-signed, unexpired token of type `refresh` carrying a
subject makes `refresh_access_token` succeed — the function consults no
blacklist and no user store (it takes neither as input) — returning a fresh
access token for the same subject and echoing the refresh token unchanged. -/
theorem C5_refresh_flow (p : Payload) (now : Int) (u : String)
    (hexp : now < p.exp) (htyp : p.typ = some "refresh") (hsub : p.sub = some u) :
    refresh_access_token now (.signed p REFRESH_SECRET_KEY) =
      .ok ⟨create_access_token ⟨some u⟩ now (some (ACCESS_TOKEN_EXPIRE_MINUTES * 60)),
        .signed p REFRESH_SECRET_KEY, "bearer"⟩ ∧
    jwt_decode (create_access_token ⟨some u⟩ now (some (ACCESS_TOKEN_EXPIRE_MINUTES * 60)))
        SECRET_KEY now = .ok ⟨some u, now + 900, some "access"⟩ := by
  have h1 : ¬ (p.exp ≤ now) := by omega
  refine ⟨?_, ?_⟩
  · simp [refresh_access_token, jwt_decode, h1, htyp, hsub]
  · have h2 : ¬ ((now : Int) + 900 ≤ now) := by omega
    simp [create_access_token, jwt_encode, jwt_decode,
      ACCESS_TOKEN_EXPIRE_MINUTES, h2]

/-- Witness for C5 at a concrete input: a refresh token for `john` with
expiry 100, presented at time 0. -/
theorem C5_refresh_flow_witness :
    refresh_access_token 0 (.signed ⟨some "john", 100, some "refresh"⟩ REFRESH_SECRET_KEY) =
      .ok ⟨create_access_token ⟨some "john"⟩ 0 (some (ACCESS_TOKEN_EXPIRE_MINUTES * 60)),
        .signed ⟨some "john", 100, some "refresh"⟩ REFRESH_SECRET_KEY, "bearer"⟩ ∧
    jwt_decode (create_access_token ⟨some "john"⟩ 0 (some (ACCESS_TOKEN_EXPIRE_MINUTES * 60)))
        SECRET_KEY 0 = .ok ⟨some "john", 0 + 900, some "access"⟩ :=
  C5_refresh_flow ⟨some "john", 100, some "refresh"⟩ 0 "john"
    (by decide) rfl rfl

/-- C6: a login attempt with an unknown username and one with a known
username but a password the verifier rejects produce the identical
observable outcome, the generic 401 "Incorrect credentials" error. -/
theorem C6_credential_failure_indistinguishable
    (verify : String → String → Bool) (db : String → Option UserInDB)
    (now1 now2 : Int) (u1 pw1 u2 pw2 : String) (u : UserInDB)
    (h1 : db u1 = none) (h2 : db u2 = some u)
    (h3 : verify pw2 u.hashed_password = false) :
    login verify db now1 u1 pw1 = .error ⟨401, "Incorrect credentials"⟩ ∧
    login verify db now2 u2 pw2 = .error ⟨401, "Incorrect credentials"⟩ ∧
    login verify db now1 u1 pw1 = login verify db now2 u2 pw2 := by
  refine ⟨?_, ?_, ?_⟩
  · simp [login, authenticate_user, h1]
  · simp [login, authenticate_user, h2, h3]
  · simp [login, authenticate_user, h1, h2, h3]

/-- Witness for C6 at a concrete input: username `nobody` is absent from
`fake_users_db`, `john` is present but the verifier rejects the password. -/
theorem C6_credential_failure_indistinguishable_witness :
    login (fun _ _ => false) fake_users_db 0 "nobody" "secret" =
      .error ⟨401, "Incorrect credentials"⟩ ∧
    login (fun _ _ => false) fake_users_db 5 "john" "wrong" =
      .error ⟨401, "Incorrect credentials"⟩ ∧
    login (fun _ _ => false) fake_users_db 0 "nobody" "secret" =
      login (fun _ _ => false) fake_users_db 5 "john" "wrong" :=
  C6_credential_failure_indistinguishable (fun _ _ => false) fake_users_db
    0 5 "nobody" "secret" "john" "wrong"
    ⟨⟨"john", "john@example.com", .user, some false⟩, bcrypt_hash_of_secret⟩
    rfl rfl rfl

/-- C7: any payload signed with `REFRESH_SECRET_KEY` fails `jwt_decode`
under `SECRET_KEY` with `BadSignature`, whatever and however well-formed
the claims are — the two secrets are distinct trust domains. -/
theorem C7_cross_secret_rejection (p : Payload) (now : Int) :
    jwt_decode (jwt_encode p REFRESH_SECRET_KEY) SECRET_KEY now =
      .error .badSignature := by
  have h : REFRESH_SECRET_KEY ≠ SECRET_KEY := by decide
  simp [jwt_decode, jwt_encode, h]

/-- C9: `require_admin` succeeds, returning the user unchanged, exactly
when the role is admin; every other role gets the 403 "Admin access
required" error.  The guard is a pure function of the user. -/
theorem C9_role_enforcement (u : User) :
    (require_admin u = .ok u ↔ u.role = .admin) ∧
    (u.role ≠ .admin → require_admin u = .error ⟨403, "Admin access required"⟩) := by
  refine ⟨⟨fun h => ?_, fun h => ?_⟩, fun h => ?_⟩
  · by_contra hne
    simp [require_admin, hne] at h
  · simp [require_admin, h]
  · simp [require_admin, h]

/-- Witness for C9 at concrete inputs: an admin-role user passes and a
guest-role user is rejected. -/
theorem C9_role_enforcement_witness :
    (require_admin ⟨"admin", "admin@example.com", .admin, some false⟩ =
        .ok ⟨"admin", "admin@example.com", .admin, some false⟩ ↔
      (UserRole.admin : UserRole) = .admin) ∧
    ((UserRole.guest : UserRole) ≠ .admin →
      require_admin ⟨"guest", "guest@example.com", .guest, some false⟩ =
        .error ⟨403, "Admin access required"⟩) :=
  ⟨(C9_role_enforcement ⟨"admin", "admin@example.com", .admin, some false⟩).1,
   (C9_role_enforcement ⟨"guest", "guest@example.com", .guest, some false⟩).2⟩

/-- C10: the identity returned by `get_current_user` is exactly the public
projection (username, email, role, disabled) of the stored record — the
`hashed_password` never appears — so two stores that agree on every user's
public fields (differing at most in stored password hashes) are
indistinguishable through `get_current_user`. -/
theorem C10_no_password_leak (bl : List Tok) (db1 db2 : String → Option UserInDB)
    (now : Int) (t : Tok)
    (hagree : ∀ name, (db1 name).map UserInDB.toUser =
      (db2 name).map UserInDB.toUser) :
    get_current_user bl db1 now t = get_current_user bl db2 now t ∧
    (∀ u : User, get_current_user bl db1 now t = .ok u →
      ∃ (name : String) (udb : UserInDB), db1 name = some udb ∧
        u = ⟨udb.username, udb.email, udb.role, udb.disabled⟩) := by
  constructor
  · cases t with
    | garbage s => simp [get_current_user, jwt_decode]
    | signed p k =>
        by_cases hk : k = SECRET_KEY
        · subst hk
          by_cases hb : Tok.signed p SECRET_KEY ∈ bl
          · simp [get_current_user, hb]
          · by_cases hexp : p.exp ≤ now
            · simp [get_current_user, jwt_decode, hb, hexp]
            · by_cases hty : p.typ = some "access"
              · cases hs : p.sub with
                | none => simp [get_current_user, jwt_decode, hb, hexp, hty, hs]
                | some name =>
                    have h := hagree name
                    cases h1 : db1 name with
                    | none =>
                        cases h2 : db2 name with
                        | none =>
                            simp [get_current_user, jwt_decode, hb, hexp,
                              hty, hs, h1, h2]
                        | some v => rw [h1, h2] at h; simp at h
                    | some v1 =>
                        cases h2 : db2 name with
                        | none => rw [h1, h2] at h; simp at h
                        | some v2 =>
                            rw [h1, h2] at h
                            simp only [Option.map_some'] at h
                            injection h with h
                            simp [get_current_user, jwt_decode, hb, hexp,
                              hty, hs, h1, h2, h]
              · simp [get_current_user, jwt_decode, hb, hexp, hty]
        · simp [get_current_user, jwt_decode, hk]
  · intro u hu
    cases t with
    | garbage s =>
        simp only [get_current_user, jwt_decode] at hu
        split at hu <;> simp at hu
    | signed p k =>
        by_cases hk : k = SECRET_KEY
        · subst hk
          by_cases hb : Tok.signed p SECRET_KEY ∈ bl
          · simp [get_current_user, hb] at hu
          · by_cases hexp : p.exp ≤ now
            · simp [get_current_user, jwt_decode, hb, hexp] at hu
            · by_cases hty : p.typ = some "access"
              · cases hs : p.sub with
                | none =>
                    simp [get_current_user, jwt_decode, hb, hexp, hty, hs] at hu
                | some name =>
                    cases h1 : db1 name with
                    | none =>
                        simp [get_current_user, jwt_decode, hb, hexp, hty,
                          hs, h1] at hu
                    | some udb =>
                        simp [get_current_user, jwt_decode, hb, hexp, hty,
                          hs, h1] at hu
                        exact ⟨name, udb, h1, by rw [← hu]⟩
              · simp [get_current_user, jwt_decode, hb, hexp, hty] at hu
        · simp only [get_current_user, jwt_decode, hk, ne_eq,
            not_false_eq_true, ite_true, if_true] at hu
          split at hu <;> simp at hu

/-- Witness for C10 at a concrete input: `fake_users_db` against the same
store with every stored hash replaced by "x", probed with a fresh access
token for `admin` at time 0. -/
theorem C10_no_password_leak_witness :
    (get_current_user [] fake_users_db 0
        (create_access_token ⟨some "admin"⟩ 0 (some 60)) =
      get_current_user []
        (fun n => (fake_users_db n).map (fun udb => ⟨udb.toUser, "x"⟩)) 0
        (create_access_token ⟨some "admin"⟩ 0 (some 60))) ∧
    (∀ u : User, get_current_user [] fake_users_db 0
        (create_access_token ⟨some "admin"⟩ 0 (some 60)) = .ok u →
      ∃ (name : String) (udb : UserInDB), fake_users_db name = some udb ∧
        u = ⟨udb.username, udb.email, udb.role, udb.disabled⟩) :=
  C10_no_password_leak [] fake_users_db
    (fun n => (fake_users_db n).map (fun udb => ⟨udb.toUser, "x"⟩)) 0
    (create_access_token ⟨some "admin"⟩ 0 (some 60))
    (by intro name; cases h : fake_users_db name <;> simp [h])

/-- C1: contrary to the spec (and to the endpoint's own docstring, "Logout -
add token to blacklist"), the logout body never inserts the presented token
into `token_blacklist`: whenever the token verifies, logout returns only a
message, the blacklist comes back unchanged, and the very same token still
verifies afterwards instead of failing with "Token has been revoked". -/
theorem C1_logout_does_not_revoke (bl : List Tok)
    (db : String → Option UserInDB) (now : Int) (t : Tok) (u : User)
    (h : get_current_user bl db now t = .ok u) :
    logout bl db now t = .ok ("User " ++ u.username ++ " logged out", bl) ∧
    get_current_user bl db now t = .ok u := by
  refine ⟨?_, h⟩
  simp [logout, h]

/-- Witness for C1 at a concrete input: logging out `admin`'s fresh access
token at time 0 leaves the empty blacklist empty and the token valid. -/
theorem C1_logout_does_not_revoke_witness :
    logout [] fake_users_db 0 (create_access_token ⟨some "admin"⟩ 0 (some 60)) =
      .ok ("User " ++ "admin" ++ " logged out", []) ∧
    get_current_user [] fake_users_db 0
        (create_access_token ⟨some "admin"⟩ 0 (some 60)) =
      .ok ⟨"admin", "admin@example.com", .admin, some false⟩ :=
  C1_logout_does_not_revoke [] fake_users_db 0
    (create_access_token ⟨some "admin"⟩ 0 (some 60))
    ⟨"admin", "admin@example.com", .admin, some false⟩ rfl

/-- C3 counterexample: a freshly minted refresh token presented to
`get_current_user` fails the signature check (it is signed with the other
secret), surfacing as 401 "Could not validate credentials", not as the
claimed "Invalid token type"; symmetrically, an access token presented to
`refresh_access_token` surfaces as 401 "Invalid refresh token". -/
theorem C3_wrong_type_not_reported_as_type_error :
    get_current_user [] fake_users_db 0
        (create_refresh_token ⟨some "admin"⟩ 0 none) =
      .error ⟨401, "Could not validate credentials"⟩ ∧
    refresh_access_token 0 (create_access_token ⟨some "admin"⟩ 0 none) =
      .error ⟨401, "Invalid refresh token"⟩ ∧
    (⟨401, "Could not validate credentials"⟩ : HErr) ≠ ⟨401, "Invalid token type"⟩ ∧
    (⟨401, "Invalid refresh token"⟩ : HErr) ≠ ⟨401, "Invalid token type"⟩ :=
  ⟨rfl, rfl, by decide, by decide⟩

/-- C3 amended: both cross-type presentations do fail, but the failure is
the signature mismatch of the cross-secret scheme — `jwt_decode` reports
`badSignature`, surfaced as the generic decode error of each endpoint —
because the secret check precedes the type check, which is never reached. -/
theorem C3_cross_type_rejection (bl : List Tok) (db : String → Option UserInDB)
    (data : TokenData) (mint now now2 : Int) (ed ed2 : Option Int)
    (hbl : create_refresh_token data mint ed ∉ bl) :
    jwt_decode (create_refresh_token data mint ed) SECRET_KEY now =
      .error .badSignature ∧
    get_current_user bl db now (create_refresh_token data mint ed) =
      .error ⟨401, "Could not validate credentials"⟩ ∧
    jwt_decode (create_access_token data mint ed2) REFRESH_SECRET_KEY now2 =
      .error .badSignature ∧
    refresh_access_token now2 (create_access_token data mint ed2) =
      .error ⟨401, "Invalid refresh token"⟩ := by
  have hkey : REFRESH_SECRET_KEY ≠ SECRET_KEY := by decide
  have hkey2 : SECRET_KEY ≠ REFRESH_SECRET_KEY := by decide
  have hd : jwt_decode (create_refresh_token data mint ed) SECRET_KEY now =
      .error .badSignature := by
    simp [create_refresh_token, jwt_encode, jwt_decode, hkey]
  have hd2 : jwt_decode (create_access_token data mint ed2) REFRESH_SECRET_KEY now2 =
      .error .badSignature := by
    simp [create_access_token, jwt_encode, jwt_decode, hkey2]
  refine ⟨hd, ?_, hd2, ?_⟩
  · simp [get_current_user, hbl, hd]
  · simp [refresh_access_token, hd2]

/-- Witness for C3's amended theorem at a concrete input: `admin`'s tokens
minted at time 0, empty blacklist. -/
theorem C3_cross_type_rejection_witness :
    jwt_decode (create_refresh_token ⟨some "admin"⟩ 0 none) SECRET_KEY 5 =
      .error .badSignature ∧
    get_current_user [] fake_users_db 5 (create_refresh_token ⟨some "admin"⟩ 0 none) =
      .error ⟨401, "Could not validate credentials"⟩ ∧
    jwt_decode (create_access_token ⟨some "admin"⟩ 0 (some 60)) REFRESH_SECRET_KEY 7 =
      .error .badSignature ∧
    refresh_access_token 7 (create_access_token ⟨some "admin"⟩ 0 (some 60)) =
      .error ⟨401, "Invalid refresh token"⟩ :=
  C3_cross_type_rejection [] fake_users_db ⟨some "admin"⟩ 0 5 7 none (some 60)
    (by simp)

/-- C8 counterexample: an expired, well-signed, blacklisted access token
fails `get_current_user` with "Token has been revoked", not with the expiry
failure (surfaced as "Could not validate credentials"); and at the decode
level an expired token with a wrong signature fails with `badSignature`,
not `expired` — so a past `exp` does not yield the Expired failure
"regardless of signature validity". -/
theorem C8_expiry_not_always_first :
    get_current_user [jwt_encode ⟨some "admin", -1, some "access"⟩ SECRET_KEY]
        fake_users_db 0 (jwt_encode ⟨some "admin", -1, some "access"⟩ SECRET_KEY) =
      .error ⟨401, "Token has been revoked"⟩ ∧
    jwt_decode (jwt_encode ⟨some "admin", -1, some "access"⟩ "wrong-secret")
        SECRET_KEY 0 = .error .badSignature ∧
    JWTError.badSignature ≠ JWTError.expired ∧
    (⟨401, "Token has been revoked"⟩ : HErr) ≠ ⟨401, "Could not validate credentials"⟩ :=
  ⟨rfl, rfl, by decide, by decide⟩

/-- C8 amended: a token whose `exp` is at or before the current time and
whose signature is valid for the verifying secret fails with the `expired`
decode error — surfaced by `get_current_user` (when the token is not
blacklisted) as 401 "Could not validate credentials" and by
`refresh_access_token` as 401 "Invalid refresh token". -/
theorem C8_expired_rejection (p : Payload) (bl : List Tok)
    (db : String → Option UserInDB) (now : Int)
    (hexp : p.exp ≤ now) (hbl : jwt_encode p SECRET_KEY ∉ bl) :
    jwt_decode (jwt_encode p SECRET_KEY) SECRET_KEY now = .error .expired ∧
    get_current_user bl db now (jwt_encode p SECRET_KEY) =
      .error ⟨401, "Could not validate credentials"⟩ ∧
    jwt_decode (jwt_encode p REFRESH_SECRET_KEY) REFRESH_SECRET_KEY now =
      .error .expired ∧
    refresh_access_token now (jwt_encode p REFRESH_SECRET_KEY) =
      .error ⟨401, "Invalid refresh token"⟩ := by
  have hd : jwt_decode (jwt_encode p SECRET_KEY) SECRET_KEY now = .error .expired := by
    simp [jwt_encode, jwt_decode, hexp]
  have hd2 : jwt_decode (jwt_encode p REFRESH_SECRET_KEY) REFRESH_SECRET_KEY now =
      .error .expired := by
    simp [jwt_encode, jwt_decode, hexp]
  refine ⟨hd, ?_, hd2, ?_⟩
  · simp [get_current_user, hbl, hd]
  · simp [refresh_access_token, hd2]

/-- Witness for C8's amended theorem at a concrete input: a token whose
`exp` equals the current time, empty blacklist. -/
theorem C8_expired_rejection_witness :
    jwt_decode (jwt_encode ⟨some "admin", 0, some "access"⟩ SECRET_KEY)
        SECRET_KEY 0 = .error .expired ∧
    get_current_user [] fake_users_db 0
        (jwt_encode ⟨some "admin", 0, some "access"⟩ SECRET_KEY) =
      .error ⟨401, "Could not validate credentials"⟩ ∧
    jwt_decode (jwt_encode ⟨some "admin", 0, some "access"⟩ REFRESH_SECRET_KEY)
        REFRESH_SECRET_KEY 0 = .error .expired ∧
    refresh_access_token 0 (jwt_encode ⟨some "admin", 0, some "access"⟩ REFRESH_SECRET_KEY) =
      .error ⟨401, "Invalid refresh token"⟩ :=
  C8_expired_rejection ⟨some "admin", 0, some "access"⟩ [] fake_users_db 0
    (by decide) (by simp)

/-- C2 counterexample: a blacklisted unparseable token.  The code reports
"Token has been revoked" (revocation is checked first), while a verifier
honoring the claimed order parse → signature → type → expiry → revocation →
subject existence would report the parse failure "Could not validate
credentials". -/
theorem C2_revocation_checked_first :
    get_current_user [Tok.garbage "not-a-jwt"] fake_users_db 0
        (Tok.garbage "not-a-jwt") =
      .error ⟨401, "Token has been revoked"⟩ ∧
    get_current_user_spec_order [Tok.garbage "not-a-jwt"] fake_users_db 0
        (Tok.garbage "not-a-jwt") =
      .error ⟨401, "Could not validate credentials"⟩ ∧
    (⟨401, "Token has been revoked"⟩ : HErr) ≠ ⟨401, "Could not validate credentials"⟩ :=
  ⟨rfl, rfl, by decide⟩

/-- C2 amended: verification short-circuits on the first failing check, but
in the order revocation → parse → signature → expiry → type → subject
presence → subject existence: the error returned is exactly the first
`some` among the elementary checks in that order, and verification succeeds
exactly when every check passes. -/
theorem C2_short_circuit_order (bl : List Tok) (db : String → Option UserInDB)
    (now : Int) (t : Tok) :
    (∀ e : HErr, get_current_user bl db now t = .error e ↔
      (access_checks bl db now t).findSome? id = some e) ∧
    ((∃ u, get_current_user bl db now t = .ok u) ↔
      (access_checks bl db now t).findSome? id = none) := by
  cases t with
  | garbage s =>
      by_cases hb : Tok.garbage s ∈ bl <;>
        simp [get_current_user, jwt_decode, access_checks, revocationCheck,
          parseCheck, signatureCheck, expiryCheck, typeCheck,
          subjectPresentCheck, subjectExistsCheck, List.findSome?, hb]
  | signed p k =>
      by_cases hb : Tok.signed p k ∈ bl
      · simp [get_current_user, jwt_decode, access_checks, revocationCheck,
          parseCheck, signatureCheck, expiryCheck, typeCheck,
          subjectPresentCheck, subjectExistsCheck, List.findSome?, hb]
      · by_cases hk : k = SECRET_KEY
        · subst hk
          by_cases hexp : p.exp ≤ now
          · simp [get_current_user, jwt_decode, access_checks, revocationCheck,
              parseCheck, signatureCheck, expiryCheck, typeCheck,
              subjectPresentCheck, subjectExistsCheck, List.findSome?, hb, hexp]
          · by_cases hty : p.typ = some "access"
            · cases hs : p.sub with
              | none =>
                  simp [get_current_user, jwt_decode, access_checks,
                    revocationCheck, parseCheck, signatureCheck, expiryCheck,
                    typeCheck, subjectPresentCheck, subjectExistsCheck,
                    List.findSome?, hb, hexp, hty, hs]
              | some name =>
                  cases h1 : db name <;>
                    simp [get_current_user, jwt_decode, access_checks,
                      revocationCheck, parseCheck, signatureCheck, expiryCheck,
                      typeCheck, subjectPresentCheck, subjectExistsCheck,
                      List.findSome?, hb, hexp, hty, hs, h1]
            · simp [get_current_user, jwt_decode, access_checks,
                revocationCheck, parseCheck, signatureCheck, expiryCheck,
                typeCheck, subjectPresentCheck, subjectExistsCheck,
                List.findSome?, hb, hexp, hty]
        · simp [get_current_user, jwt_decode, access_checks, revocationCheck,
            parseCheck, signatureCheck, expiryCheck, typeCheck,
            subjectPresentCheck, subjectExistsCheck, List.findSome?, hb, hk]
